import Mathlib

/-!
Verification development for the iCUE command-line adapter
(`src/helpers/icue-python/icue_helper.py`).

The program is a sequential command adapter around an external lighting SDK.
We embed it shallowly: the SDK is modelled as a structure of pure oracle
functions (`CueSdk`), JSON documents as an inductive `JVal`, and the two
ways an invocation can escape — `json_out` (which prints one JSON line and
calls `sys.exit`, whose Python type is `NoReturn`) and an uncaught Python
exception — as the error channel of an `Except Outcome` monad.  Each
command function therefore produces exactly one `Outcome`, mirroring the
fact that every control path of the source ends in `json_out` or raises.

Buffered-write and flush calls made against the SDK are additionally
recorded in an event trace so that best-effort fan-out claims can be
stated about which writes were attempted.
-/

namespace ICue

/-- JSON values, the shape of every object the program prints.
JSON numbers in this program are integers (LED ids and color channels). -/
inductive JVal where
  | jnull
  | jbool (b : Bool)
  | jint (n : Int)
  | jstr (s : String)
  | jarr (xs : List JVal)
  | jobj (fields : List (String × JVal))

/-- Dictionary lookup with Python `dict` overwrite semantics: when a key was
inserted more than once (entries appear in insertion order), the latest
binding wins. -/
def dlookup {α β : Type} [DecidableEq α] (k : α) : List (α × β) → Option β
  | [] => none
  | (a, b) :: t =>
    match dlookup k t with
    | some v => some v
    | none => if a = k then some b else none

/-- SDK status codes.  Only `CE_Success` is treated as success by the
adapter; every other member of the vendor vocabulary is carried as its
printable name. -/
inductive CorsairError where
  | CE_Success
  | CE_Failure (code : String)
deriving DecidableEq, Repr

/-- `str(err)` as used when the adapter embeds a status code in JSON. -/
def CorsairError.toStr : CorsairError → String
  | .CE_Success => "CorsairError.CE_Success"
  | .CE_Failure c => c

/-- One element of the `sdk.get_devices` result.  The adapter only reads
`device_id` via `getattr(d, 'device_id', None)`; `none` covers both a
missing attribute and a non-string value (the source guards uses of the id
with `isinstance(dev_id, str)`). -/
structure SdkDevice where
  device_id : Option String
deriving DecidableEq, Repr

/-- The fields of `sdk.get_device_info` that the adapter projects.  Each is
read with `getattr(info, field, None)`.  `dtype_str` stands for the
computed type tag (`getattr(info.type, 'name', None)`). -/
structure DeviceInfo where
  dtype_str : Option String
  model : Option String
  serial : Option String
  led_count : Option Int
  channel_count : Option Int
deriving DecidableEq, Repr

/-- One LED topology record as read from the SDK (`led_id`, bounding box). -/
structure LedPosition where
  led_id : Option Int
  top : Option Int
  left : Option Int
  height : Option Int
  width : Option Int
deriving DecidableEq, Repr

/-- The object returned by the SDK position queries; the adapter reads
`getattr(positions, 'led_positions', []) or []`. -/
structure LedPositions where
  led_positions : Option (List LedPosition)
deriving DecidableEq, Repr

/-- `getattr(positions, 'led_positions', []) or []`. -/
def ledList (p : LedPositions) : List LedPosition :=
  p.led_positions.getD []

/-- A single LED color assignment handed to the SDK. -/
structure CorsairLedColor where
  led_id : Int
  r : Int
  g : Int
  b : Int
deriving DecidableEq, Repr

/-- The oracle for the external SDK: one field per SDK behaviour the
adapter consumes.  `has_*` flags model the `callable(getattr(sdk, name,
None))` probes; `*_raises` flags model a `TypeError` raised by a two-
argument call to a buffer function (caught by the source and answered with
the one-argument form `fn(colors)`, modelled by the `*_arity1` field). -/
structure CueSdk where
  connect_err : CorsairError
  /-- Whether the `CSS_Connected` notification arrives within the bounded
  wait.  The source waits on it but never consults the result. -/
  session_connected_within_timeout : Bool
  get_devices : Option (List SdkDevice) × CorsairError
  get_device_info : Option String → Option DeviceInfo × CorsairError
  has_get_led_positions_by_device_index : Bool
  get_led_positions_by_device_index : Int → Option LedPositions × CorsairError
  has_get_led_positions_by_device_id : Bool
  get_led_positions_by_device_id : String → Option LedPositions × CorsairError
  has_get_led_positions : Bool
  get_led_positions : String → Option LedPositions × CorsairError
  has_set_led_colors_buffer_by_device_index : Bool
  set_led_colors_buffer_by_device_index_raises : Bool
  set_led_colors_buffer_by_device_index : Int → List CorsairLedColor → CorsairError
  has_set_led_colors_buffer_by_device_id : Bool
  set_led_colors_buffer_by_device_id_raises : Bool
  set_led_colors_buffer_by_device_id : String → List CorsairLedColor → CorsairError
  set_led_colors_buffer_by_device_id_arity1 : List CorsairLedColor → CorsairError
  has_set_led_colors_buffer : Bool
  set_led_colors_buffer_raises : Bool
  set_led_colors_buffer : String → List CorsairLedColor → CorsairError
  set_led_colors_buffer_arity1 : List CorsairLedColor → CorsairError
  has_set_led_colors_flush_buffer : Bool
  set_led_colors_flush_buffer : CorsairError

/-- How one invocation escapes its linear control flow: `out` is
`json_out(obj, code)` (print one JSON line, `sys.exit(code)` — a
`SystemExit`, not caught by the top-level `except Exception`), `exn` is an
uncaught Python exception carrying `str(e)`. -/
inductive Outcome where
  | out (j : JVal) (code : Nat)
  | exn (msg : String)

/-- Computations that may terminate the process. -/
abbrev M (α : Type) := Except Outcome α

/-- `json_out(obj, code)`: prints `json.dumps(obj)` on its own line on
stdout and exits.  Its Python type is `NoReturn`, hence the polymorphic
return type. -/
def json_out (obj : JVal) (code : Nat) : M α :=
  Except.error (Outcome.out obj code)

/-- Which SDK entry point a buffered write was dispatched to. -/
inductive WriteTarget where
  | byIndex (i : Int)
  | byId (dev_id : String)
  /-- the one-argument fallback `fn(colors)` after a `TypeError`. -/
  | colorsOnly
deriving DecidableEq, Repr

/-- Observable SDK mutation calls, for stating fan-out properties. -/
inductive Event where
  | write (target : WriteTarget) (colors : List CorsairLedColor)
  | flush
deriving DecidableEq, Repr

/- ## Python `int()` on strings, `is_int_str` -/

/-- Characters Python's `str.strip()` removes (ASCII whitespace). -/
def pyIsSpace (c : Char) : Bool :=
  c = ' ' ∨ c = '\t' ∨ c = '\n' ∨ c = '\x0d' ∨ c = '\x0b' ∨ c = '\x0c'

/-- `s.strip()` as a character list. -/
def pyStrip (s : String) : List Char :=
  ((s.data.dropWhile pyIsSpace).reverse.dropWhile pyIsSpace).reverse

/-- Tail of a digit group: digits, with single underscores allowed only
between digits (Python 3 integer-literal rule used by `int()`). -/
def digitsTail : List Char → Bool
  | [] => true
  | '_' :: c :: t => c.isDigit && digitsTail t
  | c :: t => c.isDigit && digitsTail t

/-- Accumulate the value of a validated digit group, skipping underscores. -/
def digitsVal (acc : Nat) : List Char → Nat
  | [] => acc
  | '_' :: t => digitsVal acc t
  | c :: t => digitsVal (acc * 10 + (c.toNat - '0'.toNat)) t

/-- Parse an unsigned digit group as `int()` does after sign handling. -/
def parseUnsignedDigits (cs : List Char) : Option Nat :=
  match cs with
  | [] => none
  | c :: t => if c.isDigit && digitsTail t then some (digitsVal 0 (c :: t)) else none

/-- Python `int(s)` for `str` input: strip whitespace, optional sign,
decimal digits (single underscores between digits allowed).  `none` means
`int()` raises `ValueError`. -/
def pyStrToInt (s : String) : Option Int :=
  match pyStrip s with
  | '+' :: rest => (parseUnsignedDigits rest).map Int.ofNat
  | '-' :: rest => (parseUnsignedDigits rest).map (fun n => -(n : Int))
  | rest => (parseUnsignedDigits rest).map Int.ofNat

/-- `is_int_str(s)`: whether `int(s)` succeeds. -/
def is_int_str (s : String) : Bool :=
  (pyStrToInt s).isSome

/-- The identifier union `Union[int, str]` the commands build with
`int(device_identifier) if is_int_str(device_identifier) else
device_identifier`. -/
inductive Ident where
  | idx (i : Int)
  | id (s : String)
deriving DecidableEq, Repr

/-- `int(s) if is_int_str(s) else s`. -/
def parseIdent (s : String) : Ident :=
  match pyStrToInt s with
  | some n => Ident.idx n
  | none => Ident.id s

/-- `int(s)` where failure raises a `ValueError` caught by `main`'s
top-level handler. -/
def pyIntExc (s : String) : M Int :=
  match pyStrToInt s with
  | some n => Except.ok n
  | none => Except.error (Outcome.exn ("invalid literal for int() with base 10: " ++ s))

/- ## Python `int()` and subscription on JSON payload values -/

/-- Python `int(x)` on a JSON-decoded value.  `Except.error` carries the
exception message. -/
def pyIntOfJVal : JVal → Except String Int
  | .jint n => .ok n
  | .jbool b => .ok (if b then 1 else 0)
  | .jstr s =>
    match pyStrToInt s with
    | some n => .ok n
    | none => .error ("invalid literal for int() with base 10: " ++ s)
  | .jnull => .error "int() argument must be a string, a bytes-like object or a real number, not NoneType"
  | .jarr _ => .error "int() argument must be a string, a bytes-like object or a real number, not list"
  | .jobj _ => .error "int() argument must be a string, a bytes-like object or a real number, not dict"

/-- Python `item[k]` on a JSON-decoded value; raises unless `item` is a
dict containing `k`. -/
def jGetItem (j : JVal) (k : String) : Except String JVal :=
  match j with
  | .jobj fs =>
    match dlookup k fs with
    | some v => .ok v
    | none => .error k
  | .jstr _ => .error "string indices must be integers"
  | .jarr _ => .error "list indices must be integers or slices, not str"
  | _ => .error "object is not subscriptable"

/-- Python `for item in payload`: what iteration yields for each JSON
shape (`dict` yields its keys, `str` its characters); non-iterables raise
`TypeError`. -/
def pyIterate : JVal → Except String (List JVal)
  | .jarr xs => .ok xs
  | .jobj fs => .ok (fs.map (fun p => JVal.jstr p.1))
  | .jstr s => .ok (s.data.map (fun c => JVal.jstr (String.mk [c])))
  | .jnull => .error "NoneType object is not iterable"
  | .jbool _ => .error "bool object is not iterable"
  | .jint _ => .error "int object is not iterable"

/- ## Session establishment -/

/-- `connect_sdk(timeout_sec=5.0)`: request a session; if the connect call
itself fails, `json_out({error, code}, 1)`.  Otherwise wait (bounded) for
the `CSS_Connected` notification; the outcome of that wait
(`session_connected_within_timeout`) is never consulted, so a timed-out
wait alone never fails. -/
def connect_sdk (sdk : CueSdk) : M Unit :=
  if sdk.connect_err ≠ CorsairError.CE_Success then
    json_out (JVal.jobj [("error", JVal.jstr "Failed to connect to iCUE. Ensure iCUE is running and SDK is enabled."), ("code", JVal.jstr sdk.connect_err.toStr)]) 1
  else
    -- ready.wait(timeout_sec): result ignored
    Except.ok ()

/- ## Device enumeration -/

/-- One entry of the `list_devices` result (a Python dict with fixed
keys). -/
structure DeviceEntry where
  index : Nat
  device_id : Option String
  type_tag : Option String
  model : Option String
  serial : Option String
  led_count : Option Int
  channel_count : Option Int
deriving DecidableEq, Repr

/-- `None`-respecting string field projection into JSON. -/
def joptStr : Option String → JVal
  | some s => JVal.jstr s
  | none => JVal.jnull

/-- `None`-respecting integer field projection into JSON. -/
def joptInt : Option Int → JVal
  | some n => JVal.jint n
  | none => JVal.jnull

/-- Serialize a device entry the way the source builds its dict. -/
def DeviceEntry.toJson (d : DeviceEntry) : JVal :=
  JVal.jobj [("index", JVal.jint d.index), ("device_id", joptStr d.device_id),
    ("type", joptStr d.type_tag), ("model", joptStr d.model),
    ("serial", joptStr d.serial), ("led_count", joptInt d.led_count),
    ("channel_count", joptInt d.channel_count)]

/-- The `ierr != CorsairError.CE_Success or info is None` skip test of
the enumeration loop: the device's info exactly when its query
succeeded. -/
def devInfoOk (sdk : CueSdk) (d : SdkDevice) : Option DeviceInfo :=
  match sdk.get_device_info d.device_id with
  | (some info, CorsairError.CE_Success) => some info
  | _ => none

/-- The dict entry built for one enumerated device. -/
def deviceEntryOf (idx : Nat) (d : SdkDevice) (info : DeviceInfo) : DeviceEntry :=
  { index := idx, device_id := d.device_id, type_tag := info.dtype_str,
    model := info.model, serial := info.serial,
    led_count := info.led_count, channel_count := info.channel_count }

/-- The `for idx, d in enumerate(devices or [])` loop body of
`get_devices_with_indexes`: skip a device whose info query fails or
returns `None`, otherwise append its entry and (when its id is a string)
extend both mappings.  `idx` counts every enumerated device, including
skipped ones. -/
def devRows (sdk : CueSdk) : Nat → List SdkDevice →
    List DeviceEntry × List (Int × String) × List (String × Int)
  | _, [] => ([], [], [])
  | idx, d :: rest =>
    let tail := devRows sdk (idx + 1) rest
    match devInfoOk sdk d with
    | none => tail
    | some info =>
      match d.device_id with
      | some s =>
        (deviceEntryOf idx d info :: tail.1,
         ((idx : Int), s) :: tail.2.1, (s, (idx : Int)) :: tail.2.2)
      | none => (deviceEntryOf idx d info :: tail.1, tail.2.1, tail.2.2)

/-- `get_devices_with_indexes(sdk)`: enumerate devices (fatal `json_out`
on SDK failure), then build the entry list, the index→id mapping and the
id→index mapping. -/
def get_devices_with_indexes (sdk : CueSdk) :
    M (List DeviceEntry × List (Int × String) × List (String × Int)) :=
  -- devices, err = sdk.get_devices(...)
  if (sdk.get_devices).2 ≠ CorsairError.CE_Success then
    json_out (JVal.jobj [("error", JVal.jstr "Could not enumerate devices"), ("code", JVal.jstr (sdk.get_devices).2.toStr)]) 1
  else
    Except.ok (devRows sdk 0 ((sdk.get_devices).1.getD []))

/- ## Identifier resolution -/

/-- The body of `to_device_id` after the re-enumeration: an `int` is
looked up in the index→id mapping; a string is first tried as an integer
(`is_int_str`) and then looked up as an index, otherwise accepted exactly
when it appears in the id→index mapping. -/
def resolve_in_maps (index_to_id : List (Int × String))
    (id_to_index : List (String × Int)) : Ident → M String
  | Ident.idx i =>
    match dlookup i index_to_id with
    | some d => Except.ok d
    | none => json_out (JVal.jobj [("error", JVal.jstr ("Index out of range: " ++ toString i))]) 1
  | Ident.id s =>
    match pyStrToInt s with
    | some i =>
      match dlookup i index_to_id with
      | some d => Except.ok d
      | none => json_out (JVal.jobj [("error", JVal.jstr ("Index out of range: " ++ s))]) 1
    | none =>
      if (dlookup s id_to_index).isSome then Except.ok s
      else json_out (JVal.jobj [("error", JVal.jstr ("Unknown device identifier: " ++ s))]) 1

/-- `to_device_id(sdk, ident)`: re-enumerate, then resolve an integer (or
integer-parseable string) as an index via the index→id mapping, and any
other string via membership in the id→index mapping. -/
def to_device_id (sdk : CueSdk) (ident : Ident) : M String := do
  let (_, index_to_id, id_to_index) ← get_devices_with_indexes sdk
  resolve_in_maps index_to_id id_to_index ident

/- ## LED position query and buffered writes -/

/-- The `for name in ['get_led_positions_by_device_id',
'get_led_positions']` fallback of `get_led_positions`. -/
def get_led_positions_id_fallback (sdk : CueSdk) (dev_id : String) :
    M (Option LedPositions × CorsairError) :=
  if sdk.has_get_led_positions_by_device_id then
    Except.ok (sdk.get_led_positions_by_device_id dev_id)
  else if sdk.has_get_led_positions then
    Except.ok (sdk.get_led_positions dev_id)
  else
    json_out (JVal.jobj [("error", JVal.jstr "No LED position API available in cuesdk")]) 1

/-- `get_led_positions(sdk, ident)`: prefer the index-addressed SDK entry
point for an integer identifier; otherwise resolve to a device id and
probe the id-addressed entry points. -/
def get_led_positions (sdk : CueSdk) (ident : Ident) :
    M (Option LedPositions × CorsairError) :=
  match ident with
  | Ident.idx i =>
    if sdk.has_get_led_positions_by_device_index then
      Except.ok (sdk.get_led_positions_by_device_index i)
    else do
      let dev_id ← to_device_id sdk ident
      get_led_positions_id_fallback sdk dev_id
  | Ident.id _ => do
    let dev_id ← to_device_id sdk ident
    get_led_positions_id_fallback sdk dev_id

/-- The opening `isinstance(ident, int)` branch of `set_colors_buffer`:
the index-addressed buffer call for an integer identifier, `none` when
the entry point is missing or its two-argument call raises `TypeError`
(both fall through to the id-addressed path). -/
def set_colors_buffer_index_attempt (sdk : CueSdk) (ident : Ident)
    (colors : List CorsairLedColor) : Option (CorsairError × List Event) :=
  match ident with
  | Ident.idx i =>
    if sdk.has_set_led_colors_buffer_by_device_index then
      if sdk.set_led_colors_buffer_by_device_index_raises then none
      else some (sdk.set_led_colors_buffer_by_device_index i colors,
        [Event.write (WriteTarget.byIndex i) colors])
    else none
  | Ident.id _ => none

/-- The `for name in ['set_led_colors_buffer_by_device_id',
'set_led_colors_buffer']` fallback, once the identifier has been resolved
to a device id. -/
def set_colors_buffer_with_id (sdk : CueSdk) (dev_id : String)
    (colors : List CorsairLedColor) : CorsairError × List Event :=
  if sdk.has_set_led_colors_buffer_by_device_id then
    if sdk.set_led_colors_buffer_by_device_id_raises then
      (sdk.set_led_colors_buffer_by_device_id_arity1 colors,
        [Event.write WriteTarget.colorsOnly colors])
    else
      (sdk.set_led_colors_buffer_by_device_id dev_id colors,
        [Event.write (WriteTarget.byId dev_id) colors])
  else if sdk.has_set_led_colors_buffer then
    if sdk.set_led_colors_buffer_raises then
      (sdk.set_led_colors_buffer_arity1 colors,
        [Event.write WriteTarget.colorsOnly colors])
    else
      (sdk.set_led_colors_buffer dev_id colors,
        [Event.write (WriteTarget.byId dev_id) colors])
  else
    (CorsairError.CE_Failure "CorsairError.CE_Unknown", [])

/-- `set_colors_buffer(sdk, ident, colors)`: try the index-addressed
buffer call for an integer identifier (falling through on `TypeError`),
otherwise resolve the identifier and probe the id-addressed then generic
entry points, answering a `TypeError` with the one-argument call.  Every
dispatched SDK call is recorded as a `write` event. -/
def set_colors_buffer (sdk : CueSdk) (ident : Ident) (colors : List CorsairLedColor) :
    M (CorsairError × List Event) :=
  match set_colors_buffer_index_attempt sdk ident colors with
  | some r => Except.ok r
  | none => do
    let dev_id ← to_device_id sdk ident
    Except.ok (set_colors_buffer_with_id sdk dev_id colors)

/-- `flush_colors(sdk)`: call the flush entry point when present (recorded
as a `flush` event), otherwise report success. -/
def flush_colors (sdk : CueSdk) : CorsairError × List Event :=
  if sdk.has_set_led_colors_flush_buffer then
    (sdk.set_led_colors_flush_buffer, [Event.flush])
  else
    (CorsairError.CE_Success, [])

/- ## Commands

Each command ends in `json_out` (or raises), so a command evaluates to an
`Outcome` paired with the trace of buffered-write/flush SDK calls it
performed. -/

/-- `list_devices_cmd()`. -/
def list_devices_cmd (sdk : CueSdk) : Outcome × List Event :=
  match connect_sdk sdk with
  | Except.error o => (o, [])
  | Except.ok () =>
    match get_devices_with_indexes sdk with
    | Except.error o => (o, [])
    | Except.ok (devices, _, _) =>
      (Outcome.out (JVal.jobj [("ok", JVal.jbool true),
        ("devices", JVal.jarr (devices.map DeviceEntry.toJson))]) 0, [])

/-- Serialize one LED position record as `list_leds` does. -/
def LedPosition.toJson (lp : LedPosition) : JVal :=
  JVal.jobj [("led_id", joptInt lp.led_id), ("top", joptInt lp.top),
    ("left", joptInt lp.left), ("height", joptInt lp.height),
    ("width", joptInt lp.width)]

/-- `list_leds_cmd(device_identifier)`. -/
def list_leds_cmd (sdk : CueSdk) (device_identifier : String) : Outcome × List Event :=
  match connect_sdk sdk with
  | Except.error o => (o, [])
  | Except.ok () =>
    match get_led_positions sdk (parseIdent device_identifier) with
    | Except.error o => (o, [])
    | Except.ok (positions, err) =>
      match positions, err with
      | some p, CorsairError.CE_Success =>
        (Outcome.out (JVal.jobj [("ok", JVal.jbool true),
          ("device", JVal.jstr device_identifier),
          ("leds", JVal.jarr ((ledList p).map LedPosition.toJson))]) 0, [])
      | _, _ =>
        (Outcome.out (JVal.jobj [("error", JVal.jstr "Could not get LED positions"),
          ("code", JVal.jstr err.toStr),
          ("device", JVal.jstr device_identifier)]) 1, [])

/-- The per-LED color list `set_color_cmd` builds for one device: one
assignment per LED position whose `led_id` is not `None`, all with the
same `(r, g, b)`. -/
def uniform_colors (p : LedPositions) (r g b : Int) : List CorsairLedColor :=
  (ledList p).filterMap (fun lp => lp.led_id.map (fun lid => ⟨lid, r, g, b⟩))

/-- The `for ident in targets` loop of `set_color_cmd`: per target, skip on
position-query failure, empty color list, or non-`Success` buffered write;
flush after a successful write; finally `json_out({ok: true})`.  The
accumulator collects the SDK write/flush events performed so far. -/
def set_color_loop (sdk : CueSdk) (r g b : Int) :
    List Ident → List Event → Outcome × List Event
  | [], acc => (Outcome.out (JVal.jobj [("ok", JVal.jbool true)]) 0, acc)
  | ident :: rest, acc =>
    match get_led_positions sdk ident with
    | Except.error o => (o, acc)
    | Except.ok (positions, perr) =>
      match positions, perr with
      | some p, CorsairError.CE_Success =>
        let colors := uniform_colors p r g b
        if colors.isEmpty then set_color_loop sdk r g b rest acc
        else
          match set_colors_buffer sdk ident colors with
          | Except.error o => (o, acc)
          | Except.ok (err, tr) =>
            if err ≠ CorsairError.CE_Success then
              set_color_loop sdk r g b rest (acc ++ tr)
            else
              set_color_loop sdk r g b rest (acc ++ tr ++ (flush_colors sdk).2)
      | _, _ => set_color_loop sdk r g b rest acc

/-- Python truthiness of the optional `device_identifier` argument
(`None` and the empty string are falsy). -/
def truthy : Option String → Bool
  | none => false
  | some s => s ≠ ""

/-- `set_color_cmd(r, g, b, device_identifier=None)`: one explicit target,
or every enumerated device's index when the identifier is absent (or
falsy). -/
def set_color_cmd (sdk : CueSdk) (r g b : Int) (device_identifier : Option String) :
    Outcome × List Event :=
  match connect_sdk sdk with
  | Except.error o => (o, [])
  | Except.ok () =>
    if truthy device_identifier then
      set_color_loop sdk r g b [parseIdent (device_identifier.getD "")] []
    else
      match get_devices_with_indexes sdk with
      | Except.error o => (o, [])
      | Except.ok (devices, _, _) =>
        set_color_loop sdk r g b (devices.map (fun d => Ident.idx (d.index : Int))) []

/-- One iteration of the `for item in leds_payload` loop of
`set_leds_cmd`: `CorsairLedColor(int(item['led_id']), int(item['r']),
int(item['g']), int(item['b']))`, evaluated left to right. -/
def build_color (item : JVal) : Except String CorsairLedColor := do
  let lid ← jGetItem item "led_id" >>= pyIntOfJVal
  let r ← jGetItem item "r" >>= pyIntOfJVal
  let g ← jGetItem item "g" >>= pyIntOfJVal
  let b ← jGetItem item "b" >>= pyIntOfJVal
  Except.ok ⟨lid, r, g, b⟩

/-- The whole color-building loop: stops at the first malformed entry,
whose exception message is propagated. -/
def build_colors (items : List JVal) : Except String (List CorsairLedColor) :=
  items.mapM build_color

/-- `set_leds_cmd(device_identifier, leds_payload)`. -/
def set_leds_cmd (sdk : CueSdk) (device_identifier : String) (payload : JVal) :
    Outcome × List Event :=
  match connect_sdk sdk with
  | Except.error o => (o, [])
  | Except.ok () =>
    match pyIterate payload >>= build_colors with
    | Except.error m => (Outcome.exn m, [])
    | Except.ok colors =>
      match set_colors_buffer sdk (parseIdent device_identifier) colors with
      | Except.error o => (o, [])
      | Except.ok (err, tr) =>
        if err ≠ CorsairError.CE_Success then
          (Outcome.out (JVal.jobj [("error", JVal.jstr "Failed to set LED colors"),
            ("code", JVal.jstr err.toStr)]) 1, tr)
        else
          (Outcome.out (JVal.jobj [("ok", JVal.jbool true)]) 0,
            tr ++ (flush_colors sdk).2)

/- ## main -/

/-- The usage object printed when no arguments are given. -/
def usageObj : JVal :=
  JVal.jobj [("error", JVal.jstr "Usage: list_devices | list_leds <deviceId|index> | set_color <r> <g> <b> [deviceId|index] | set_leds <deviceId|index> <jsonArray>")]

/-- The `try:` body of `main` (command dispatch).  `jloads` is the
standard-library `json.loads`, treated as an oracle; its `Except.error`
is a raised exception. -/
def dispatch (sdk : CueSdk) (jloads : String → Except String JVal)
    (argv : List String) (stdin : String) : Outcome × List Event :=
  -- cmd = argv[0]; the guards below need argv[i] only where the length
  -- guard proves the element exists, so `getD` defaults are never used
  if argv.headD "" = "list_devices" then
    list_devices_cmd sdk
  else if argv.headD "" = "list_leds" ∧ argv.length ≥ 2 then
    list_leds_cmd sdk (argv.getD 1 "")
  else if argv.headD "" = "set_color" ∧ (argv.length = 4 ∨ argv.length = 5) then
    match pyIntExc (argv.getD 1 "") with
    | Except.error o => (o, [])
    | Except.ok r =>
      match pyIntExc (argv.getD 2 "") with
      | Except.error o => (o, [])
      | Except.ok g =>
        match pyIntExc (argv.getD 3 "") with
        | Except.error o => (o, [])
        | Except.ok b =>
          let device_identifier := if argv.length = 5 then some (argv.getD 4 "") else none
          set_color_cmd sdk r g b device_identifier
  else if argv.headD "" = "set_leds" ∧ argv.length ≥ 3 then
    match (if argv.length ≥ 3 then jloads (argv.getD 2 "") else jloads stdin) with
    | Except.error m => (Outcome.exn m, [])
    | Except.ok payload => set_leds_cmd sdk (argv.getD 1 "") payload
  else
    (Outcome.out (JVal.jobj [("error", JVal.jstr "Bad arguments")]) 1, [])

/-- `main()`: the usage check, the dispatch, and the top-level
`except Exception` handler that converts an uncaught exception into
`json_out({error: str(e)}, 1)`.  The result is the one JSON document the
process prints on stdout and its exit code, plus the SDK write/flush
trace. -/
def pyMain (sdk : CueSdk) (jloads : String → Except String JVal)
    (argv : List String) (stdin : String) : (JVal × Nat) × List Event :=
  if argv.isEmpty then ((usageObj, 1), [])
  else
    match dispatch sdk jloads argv stdin with
    | (Outcome.out j c, tr) => ((j, c), tr)
    | (Outcome.exn m, tr) => ((JVal.jobj [("error", JVal.jstr m)], 1), tr)

/- ## Output-shape predicates -/

/-- Whether the printed JSON object has key `k` (only objects have keys). -/
def hasKey (j : JVal) (k : String) : Bool :=
  match j with
  | JVal.jobj fs => fs.any (fun p => p.1 == k)
  | _ => false

/-- An error document: it has an `error` key and no `ok` key. -/
def errShaped (j : JVal) : Prop :=
  hasKey j "error" = true ∧ hasKey j "ok" = false

/-- A success document: it has an `ok` key and no `error` key. -/
def okShaped (j : JVal) : Prop :=
  hasKey j "ok" = true ∧ hasKey j "error" = false

/-- Every abnormal escape of an inner helper is either a raised exception
(handled by `main`) or a `json_out` of an error document with exit
code 1. -/
def GoodErr : Outcome → Prop
  | Outcome.out j c => c = 1 ∧ errShaped j
  | Outcome.exn _ => True

/-- A command's final outcome: an error document with code 1, a success
document with code 0, or a raised exception. -/
def GoodOutcome : Outcome → Prop
  | Outcome.out j c => (c = 1 ∧ errShaped j) ∨ (c = 0 ∧ okShaped j)
  | Outcome.exn _ => True

/-- Every escape of an `M` computation is well shaped. -/
def GoodM {α : Type} (m : M α) : Prop :=
  ∀ o, m = Except.error o → GoodErr o

/-- Read a string-valued field of a JSON object (for comparing emitted
error messages). -/
def jGetStr (j : JVal) (k : String) : Option String :=
  match j with
  | JVal.jobj fs =>
    match dlookup k fs with
    | some (JVal.jstr s) => some s
    | _ => none
  | _ => none

/-- The write/flush events `set_color_cmd` performs for one index target
when the index-addressed SDK entry points are available and do not raise:
nothing if the position query fails or yields no usable LED, otherwise the
buffered write followed, on write success, by the flush call. -/
def set_color_target_trace (sdk : CueSdk) (r g b : Int) (i : Int) : List Event :=
  match sdk.get_led_positions_by_device_index i with
  | (some p, CorsairError.CE_Success) =>
    let colors := uniform_colors p r g b
    if colors.isEmpty then []
    else Event.write (WriteTarget.byIndex i) colors ::
      (if sdk.set_led_colors_buffer_by_device_index i colors = CorsairError.CE_Success then
         (flush_colors sdk).2
       else [])
  | _ => []

/- ## Concrete fixtures

A small healthy SDK (`sdk0`: one keyboard `"dev0"` at index 0 with LEDs 5
and 6, every entry point present and succeeding, except that the
id-addressed position query reports `CE_NotAllowed` and unknown indices
report `CE_InvalidArguments`), plus variants exercising specific failure
shapes. -/

def sdk0 : CueSdk where
  connect_err := CorsairError.CE_Success
  session_connected_within_timeout := true
  get_devices := (some [⟨some "dev0"⟩], CorsairError.CE_Success)
  get_device_info := fun _ =>
    (some ⟨some "CDT_Keyboard", some "K70", some "SN1", some 2, some 0⟩, CorsairError.CE_Success)
  has_get_led_positions_by_device_index := true
  get_led_positions_by_device_index := fun i =>
    if i = 0 then
      (some ⟨some [⟨some 5, some 0, some 0, some 1, some 1⟩,
                   ⟨some 6, some 0, some 1, some 1, some 1⟩]⟩, CorsairError.CE_Success)
    else (none, CorsairError.CE_Failure "CorsairError.CE_InvalidArguments")
  has_get_led_positions_by_device_id := true
  get_led_positions_by_device_id := fun _ => (none, CorsairError.CE_Failure "CorsairError.CE_NotAllowed")
  has_get_led_positions := false
  get_led_positions := fun _ => (none, CorsairError.CE_Failure "CorsairError.CE_NotAllowed")
  has_set_led_colors_buffer_by_device_index := true
  set_led_colors_buffer_by_device_index_raises := false
  set_led_colors_buffer_by_device_index := fun _ _ => CorsairError.CE_Success
  has_set_led_colors_buffer_by_device_id := true
  set_led_colors_buffer_by_device_id_raises := false
  set_led_colors_buffer_by_device_id := fun _ _ => CorsairError.CE_Success
  set_led_colors_buffer_by_device_id_arity1 := fun _ => CorsairError.CE_Success
  has_set_led_colors_buffer := false
  set_led_colors_buffer_raises := false
  set_led_colors_buffer := fun _ _ => CorsairError.CE_Success
  set_led_colors_buffer_arity1 := fun _ => CorsairError.CE_Success
  has_set_led_colors_flush_buffer := true
  set_led_colors_flush_buffer := CorsairError.CE_Success

/-- An SDK whose initial connect call is rejected. -/
def sdkBad : CueSdk :=
  { sdk0 with connect_err := CorsairError.CE_Failure "CorsairError.CE_ServerNotFound",
              session_connected_within_timeout := false }

/-- One enumerated device whose `device_id` attribute is not a string, and
no index-addressed position entry point: `set_color`'s fan-out then has to
resolve index 0, which is absent from the (empty) index→id mapping. -/
def sdkC2 : CueSdk :=
  { sdk0 with get_devices := (some [⟨none⟩], CorsairError.CE_Success),
              has_get_led_positions_by_device_index := false }

/-- A device whose opaque device id is itself the decimal string `"5"`,
and no index-addressed position entry point. -/
def sdkC5 : CueSdk :=
  { sdk0 with get_devices := (some [⟨some "5"⟩], CorsairError.CE_Success),
              has_get_led_positions_by_device_index := false }

/-- Two devices sharing the device-id string `"d"`. -/
def sdkC10 : CueSdk :=
  { sdk0 with get_devices := (some [⟨some "d"⟩, ⟨some "d"⟩], CorsairError.CE_Success) }

/-- A one-entry `set_leds` payload: LED 3 to pure red. -/
def ledEntryW : JVal :=
  JVal.jobj [("led_id", JVal.jint 3), ("r", JVal.jint 255),
    ("g", JVal.jint 0), ("b", JVal.jint 0)]

/-- A `json.loads` oracle that always raises (no command under test
reaches it unless it parses its payload argument). -/
def noLoads : String → Except String JVal :=
  fun _ => Except.error "Expecting value: line 1 column 1 (char 0)"

/-- A `json.loads` oracle decoding the two payload literals used by the
concrete runs: `"[]"` and one single-entry LED array. -/
def loadsW : String → Except String JVal := fun s =>
  if s = "[]" then Except.ok (JVal.jarr [])
  else if s = "[one]" then Except.ok (JVal.jarr [ledEntryW])
  else Except.error "Expecting value: line 1 column 1 (char 0)"

lemma M_bind_error {α β : Type} (o : Outcome) (f : α → M β) :
    (Except.error o : M α) >>= f = Except.error o := rfl

lemma M_bind_ok {α β : Type} (a : α) (f : α → M β) :
    (Except.ok a : M α) >>= f = f a := rfl

lemma connect_sdk_ok (sdk : CueSdk) (h : sdk.connect_err = CorsairError.CE_Success) :
    connect_sdk sdk = Except.ok () := by
  unfold connect_sdk
  rw [if_neg]
  intro hn
  exact hn h

lemma parseIdent_of_int (s : String) (n : Int) (hp : pyStrToInt s = some n) :
    parseIdent s = Ident.idx n := by
  unfold parseIdent
  rw [hp]

lemma GoodErr.toGoodOutcome {o : Outcome} (h : GoodErr o) : GoodOutcome o := by
  cases o with
  | out j c => exact Or.inl h
  | exn m => trivial

lemma goodM_ok {α : Type} (a : α) : GoodM (Except.ok a : M α) := by
  intro o ho
  cases ho

lemma goodM_bind {α β : Type} {m : M α} {f : α → M β}
    (hm : GoodM m) (hf : ∀ a, GoodM (f a)) : GoodM (m >>= f) := by
  intro o ho
  cases m with
  | error e =>
    have he : (Except.error e : M α) >>= f = Except.error o := ho
    have : e = o := by
      have : (Except.error e : M β) = Except.error o := he
      exact (Except.error.injEq e o).mp this
    exact this ▸ hm e rfl
  | ok a =>
    exact hf a o ho

lemma connect_sdk_good (sdk : CueSdk) : GoodM (connect_sdk sdk) := by
  intro o ho
  unfold connect_sdk at ho
  split at ho
  · cases ho
    exact ⟨rfl, rfl, rfl⟩
  · cases ho

lemma gdwi_good (sdk : CueSdk) : GoodM (get_devices_with_indexes sdk) := by
  intro o ho
  unfold get_devices_with_indexes at ho
  split at ho
  · cases ho
    exact ⟨rfl, rfl, rfl⟩
  · cases ho

lemma resolve_in_maps_good (iti : List (Int × String)) (idi : List (String × Int))
    (ident : Ident) : GoodM (resolve_in_maps iti idi ident) := by
  intro o ho
  cases ident with
  | idx i =>
    unfold resolve_in_maps at ho
    cases h : dlookup i iti with
    | some d => simp only [h] at ho; cases ho
    | none => simp only [h] at ho; cases ho; exact ⟨rfl, rfl, rfl⟩
  | id s =>
    unfold resolve_in_maps at ho
    cases hp : pyStrToInt s with
    | some i =>
      simp only [hp] at ho
      cases h : dlookup i iti with
      | some d => simp only [h] at ho; cases ho
      | none => simp only [h] at ho; cases ho; exact ⟨rfl, rfl, rfl⟩
    | none =>
      simp only [hp] at ho
      by_cases h : (dlookup s idi).isSome = true
      · simp only [h, if_true] at ho; cases ho
      · simp only [h, if_false] at ho; cases ho; exact ⟨rfl, rfl, rfl⟩

lemma to_device_id_good (sdk : CueSdk) (ident : Ident) : GoodM (to_device_id sdk ident) := by
  unfold to_device_id
  exact goodM_bind (gdwi_good sdk)
    (fun v => resolve_in_maps_good v.2.1 v.2.2 ident)

lemma get_led_positions_id_fallback_good (sdk : CueSdk) (dev_id : String) :
    GoodM (get_led_positions_id_fallback sdk dev_id) := by
  intro o ho
  unfold get_led_positions_id_fallback at ho
  split at ho
  · cases ho
  · split at ho
    · cases ho
    · cases ho; exact ⟨rfl, rfl, rfl⟩

lemma get_led_positions_good (sdk : CueSdk) (ident : Ident) :
    GoodM (get_led_positions sdk ident) := by
  unfold get_led_positions
  split
  · split
    · exact goodM_ok _
    · exact goodM_bind (to_device_id_good sdk _)
        (fun d => get_led_positions_id_fallback_good sdk d)
  · exact goodM_bind (to_device_id_good sdk _)
      (fun d => get_led_positions_id_fallback_good sdk d)

lemma set_colors_buffer_good (sdk : CueSdk) (ident : Ident) (colors : List CorsairLedColor) :
    GoodM (set_colors_buffer sdk ident colors) := by
  unfold set_colors_buffer
  cases set_colors_buffer_index_attempt sdk ident colors with
  | some r => exact goodM_ok r
  | none => exact goodM_bind (to_device_id_good sdk _) (fun d => goodM_ok _)

lemma list_devices_cmd_good (sdk : CueSdk) : GoodOutcome (list_devices_cmd sdk).1 := by
  unfold list_devices_cmd
  cases hc : connect_sdk sdk with
  | error o => exact (connect_sdk_good sdk o hc).toGoodOutcome
  | ok u =>
    cases u
    cases hg : get_devices_with_indexes sdk with
    | error o => exact (gdwi_good sdk o hg).toGoodOutcome
    | ok v =>
      obtain ⟨devs, iti, idi⟩ := v
      exact Or.inr ⟨rfl, rfl, rfl⟩

lemma list_leds_cmd_good (sdk : CueSdk) (s : String) : GoodOutcome (list_leds_cmd sdk s).1 := by
  unfold list_leds_cmd
  cases hc : connect_sdk sdk with
  | error o => exact (connect_sdk_good sdk o hc).toGoodOutcome
  | ok u =>
    cases u
    cases hg : get_led_positions sdk (parseIdent s) with
    | error o => exact (get_led_positions_good sdk _ o hg).toGoodOutcome
    | ok v =>
      obtain ⟨positions, err⟩ := v
      cases positions with
      | none => exact Or.inl ⟨rfl, rfl, rfl⟩
      | some p =>
        cases err with
        | CE_Success => exact Or.inr ⟨rfl, rfl, rfl⟩
        | CE_Failure c => exact Or.inl ⟨rfl, rfl, rfl⟩

lemma set_color_loop_good (sdk : CueSdk) (r g b : Int) :
    ∀ (targets : List Ident) (acc : List Event),
      GoodOutcome (set_color_loop sdk r g b targets acc).1 := by
  intro targets
  induction targets with
  | nil => intro acc; exact Or.inr ⟨rfl, rfl, rfl⟩
  | cons ident rest ih =>
    intro acc
    unfold set_color_loop
    cases hp : get_led_positions sdk ident with
    | error o => exact (get_led_positions_good sdk ident o hp).toGoodOutcome
    | ok v =>
      obtain ⟨positions, perr⟩ := v
      cases positions with
      | none => exact ih acc
      | some p =>
        cases perr with
        | CE_Failure c => exact ih acc
        | CE_Success =>
          by_cases he : (uniform_colors p r g b).isEmpty = true
          · simp only [he, if_true]
            exact ih acc
          · simp only [he, if_false]
            cases hb : set_colors_buffer sdk ident (uniform_colors p r g b) with
            | error o => exact (set_colors_buffer_good sdk ident _ o hb).toGoodOutcome
            | ok w =>
              obtain ⟨err, tr⟩ := w
              cases err with
              | CE_Success => simp only; exact ih _
              | CE_Failure c => simp only; exact ih _

lemma set_color_cmd_good (sdk : CueSdk) (r g b : Int) (dev? : Option String) :
    GoodOutcome (set_color_cmd sdk r g b dev?).1 := by
  unfold set_color_cmd
  cases hc : connect_sdk sdk with
  | error o => exact (connect_sdk_good sdk o hc).toGoodOutcome
  | ok u =>
    cases u
    by_cases ht : truthy dev? = true
    · simp only [ht, if_true]
      exact set_color_loop_good sdk r g b _ _
    · simp only [ht, if_false]
      cases hg : get_devices_with_indexes sdk with
      | error o => exact (gdwi_good sdk o hg).toGoodOutcome
      | ok v =>
        obtain ⟨devs, iti, idi⟩ := v
        exact set_color_loop_good sdk r g b _ _

lemma set_leds_cmd_good (sdk : CueSdk) (s : String) (payload : JVal) :
    GoodOutcome (set_leds_cmd sdk s payload).1 := by
  unfold set_leds_cmd
  split
  · rename_i o ho
    exact (connect_sdk_good sdk o ho).toGoodOutcome
  · split
    · trivial
    · split
      · rename_i o ho
        exact (set_colors_buffer_good sdk _ _ o ho).toGoodOutcome
      · split
        · exact Or.inl ⟨rfl, rfl, rfl⟩
        · exact Or.inr ⟨rfl, rfl, rfl⟩

lemma pyIntExc_good (s : String) : GoodM (pyIntExc s) := by
  intro o ho
  unfold pyIntExc at ho
  cases h : pyStrToInt s with
  | some n => simp only [h] at ho; cases ho
  | none => simp only [h] at ho; cases ho; trivial

lemma dispatch_good (sdk : CueSdk) (jloads : String → Except String JVal)
    (argv : List String) (stdin : String) :
    GoodOutcome (dispatch sdk jloads argv stdin).1 := by
  unfold dispatch
  split
  · exact list_devices_cmd_good sdk
  · split
    · exact list_leds_cmd_good sdk _
    · split
      · split
        · rename_i o ho
          exact (pyIntExc_good _ o ho).toGoodOutcome
        · split
          · rename_i o ho
            exact (pyIntExc_good _ o ho).toGoodOutcome
          · split
            · rename_i o ho
              exact (pyIntExc_good _ o ho).toGoodOutcome
            · exact set_color_cmd_good sdk _ _ _ _
      · split
        · split
          · trivial
          · exact set_leds_cmd_good sdk _ _
        · exact Or.inl ⟨rfl, rfl, rfl⟩

/-- Claim C1: every invocation produces exactly one JSON document on
stdout (by construction, `pyMain` yields exactly one `JVal` — the single
`json_out` line — plus an exit code), and the exit code is 0 exactly when
the document is a success object (it has an `ok` key and no `error` key),
while every failure path exits 1 with a document containing an `error`
key (and no `ok` key). -/
theorem C1_single_json_object_exit_code_contract (sdk : CueSdk)
    (jloads : String → Except String JVal) (argv : List String) (stdin : String) :
    ((pyMain sdk jloads argv stdin).1.2 = 0 ∧ okShaped (pyMain sdk jloads argv stdin).1.1)
    ∨ ((pyMain sdk jloads argv stdin).1.2 = 1 ∧ errShaped (pyMain sdk jloads argv stdin).1.1) := by
  unfold pyMain
  split
  · exact Or.inr ⟨rfl, rfl, rfl⟩
  · have h := dispatch_good sdk jloads argv stdin
    split
    · rename_i j c tr heq
      rw [heq] at h
      rcases h with ⟨hc, he⟩ | ⟨hc, hk⟩
      · exact Or.inr ⟨hc, he⟩
      · exact Or.inl ⟨hc, hk⟩
    · exact Or.inr ⟨rfl, rfl, rfl⟩

/-- Claim C7: during session establishment, a rejected connect call is
fatal — the program immediately emits `{error, code}` and exits 1 — while
a successful connect call proceeds whether or not the connected
notification arrived within the bounded wait: the wait's outcome is never
consulted, so a timed-out wait alone never causes a failure. -/
theorem C7_connect_failure_fatal_timeout_never_fatal (sdk : CueSdk) :
    (sdk.connect_err ≠ CorsairError.CE_Success →
      connect_sdk sdk
        = Except.error (Outcome.out (JVal.jobj
            [("error", JVal.jstr "Failed to connect to iCUE. Ensure iCUE is running and SDK is enabled."),
             ("code", JVal.jstr sdk.connect_err.toStr)]) 1))
    ∧ (sdk.connect_err = CorsairError.CE_Success →
      ∀ b : Bool, connect_sdk { sdk with session_connected_within_timeout := b } = Except.ok ()) := by
  constructor
  · intro h
    unfold connect_sdk
    rw [if_pos h]
    rfl
  · intro h b
    exact connect_sdk_ok _ h

/-- Witness for C7 at concrete SDKs: a failing connect yields the error
document with exit code 1; a successful connect with the connected
notification never observed still returns control to the command. -/
theorem C7_witness :
    connect_sdk sdkBad
      = Except.error (Outcome.out (JVal.jobj
          [("error", JVal.jstr "Failed to connect to iCUE. Ensure iCUE is running and SDK is enabled."),
           ("code", JVal.jstr "CorsairError.CE_ServerNotFound")]) 1)
    ∧ connect_sdk { sdk0 with session_connected_within_timeout := false } = Except.ok () := by
  constructor
  · exact (C7_connect_failure_fatal_timeout_never_fatal sdkBad).1 (by decide)
  · exact (C7_connect_failure_fatal_timeout_never_fatal sdk0).2 rfl false

/-- Claim C3 (counterexample): `set_leds` with the JSON array argument
omitted is NOT answered by reading the array from stdin — with a valid
payload on stdin the invocation is rejected as `Bad arguments` with exit
code 1, while the same payload passed positionally succeeds.  (The
source's stdin-reading expression is unreachable: the dispatch guard
already requires the positional argument.) -/
theorem C3_counterexample :
    (pyMain sdk0 loadsW ["set_leds", "0"] "[]").1
      = (JVal.jobj [("error", JVal.jstr "Bad arguments")], 1)
    ∧ (pyMain sdk0 loadsW ["set_leds", "0", "[]"] "").1
      = (JVal.jobj [("ok", JVal.jbool true)], 0) :=
  ⟨rfl, rfl⟩

/-- Claim C3 (amended): for every invocation `set_leds <identifier>` with
the JSON array argument omitted, the adapter rejects the invocation with
`{error: "Bad arguments"}` and exit code 1, for every SDK state, every
`json.loads` behaviour and every stdin content (the stdin fallback in the
source is dead code). -/
theorem C3_amended_missing_payload_rejected (sdk : CueSdk)
    (jloads : String → Except String JVal) (d : String) (stdin : String) :
    (pyMain sdk jloads ["set_leds", d] stdin).1
      = (JVal.jobj [("error", JVal.jstr "Bad arguments")], 1) := rfl

/-- Claim C9: an identifier string that parses as a decimal integer is
interpreted exclusively as an index — command-level parsing converts it
to an integer, and even `to_device_id`'s string branch resolves it
through the index→id mapping only, so the result is fully determined by
the index lookup and the id→index mapping is never consulted.
Consequently a device whose id string is itself a decimal number can only
be addressed by index. -/
theorem C9_parseable_string_resolved_as_index_only (sdk : CueSdk) (s : String) (n : Int)
    (devs : List DeviceEntry) (iti : List (Int × String)) (idi : List (String × Int))
    (hp : pyStrToInt s = some n)
    (hg : get_devices_with_indexes sdk = Except.ok (devs, iti, idi)) :
    parseIdent s = Ident.idx n
    ∧ (∀ d, dlookup n iti = some d → to_device_id sdk (Ident.id s) = Except.ok d)
    ∧ (dlookup n iti = none →
        to_device_id sdk (Ident.id s)
          = Except.error (Outcome.out (JVal.jobj
              [("error", JVal.jstr ("Index out of range: " ++ s))]) 1)) := by
  refine ⟨parseIdent_of_int s n hp, ?_, ?_⟩
  · intro d hd
    unfold to_device_id
    rw [hg, M_bind_ok]
    show resolve_in_maps iti idi (Ident.id s) = _
    unfold resolve_in_maps
    simp only [hp, hd]
  · intro hd
    unfold to_device_id
    rw [hg, M_bind_ok]
    show resolve_in_maps iti idi (Ident.id s) = _
    unfold resolve_in_maps
    simp only [hp, hd]
    rfl

/-- Witness for C9 at `sdk0`: the string `"0"` parses as the index 0 and
`to_device_id` resolves it through the index→id mapping to `"dev0"`. -/
theorem C9_witness :
    parseIdent "0" = Ident.idx 0
    ∧ to_device_id sdk0 (Ident.id "0") = Except.ok "dev0" := by
  have h := C9_parseable_string_resolved_as_index_only sdk0 "0" 0
    (devRows sdk0 0 [⟨some "dev0"⟩]).1
    (devRows sdk0 0 [⟨some "dev0"⟩]).2.1
    (devRows sdk0 0 [⟨some "dev0"⟩]).2.2 rfl rfl
  exact ⟨h.1, h.2.1 "dev0" rfl⟩

/-- Claim C5 (counterexample): the device id `"5"` IS present in the
id→index mapping, yet resolution does not accept it — the string parses
as an integer and is treated as index 5, which is out of range, so the
program answers `{error: "Index out of range: 5"}` with exit code 1
instead of returning the id unchanged. -/
theorem C5_counterexample :
    dlookup "5" (devRows sdkC5 0 [⟨some "5"⟩]).2.2 = some 0
    ∧ to_device_id sdkC5 (Ident.id "5")
      = Except.error (Outcome.out (JVal.jobj [("error", JVal.jstr "Index out of range: 5")]) 1)
    ∧ (list_leds_cmd sdkC5 "5").1
      = Outcome.out (JVal.jobj [("error", JVal.jstr "Index out of range: 5")]) 1 :=
  ⟨rfl, rfl, rfl⟩

/-- Claim C5 (amended): for every identifier string that is NOT parseable
as a decimal integer, resolution emits `{error: "Unknown device
identifier: ..."}` with exit code 1 when the string is absent from the
id→index mapping, and accepts the string unchanged when it is present.
(Parseable strings are instead resolved as indices, see C9.) -/
theorem C5_amended_unparseable_strings_resolved_by_id (sdk : CueSdk) (s : String)
    (devs : List DeviceEntry) (iti : List (Int × String)) (idi : List (String × Int))
    (hp : pyStrToInt s = none)
    (hg : get_devices_with_indexes sdk = Except.ok (devs, iti, idi)) :
    (dlookup s idi = none →
      to_device_id sdk (Ident.id s)
        = Except.error (Outcome.out (JVal.jobj
            [("error", JVal.jstr ("Unknown device identifier: " ++ s))]) 1))
    ∧ (∀ k, dlookup s idi = some k → to_device_id sdk (Ident.id s) = Except.ok s) := by
  constructor
  · intro hd
    unfold to_device_id
    rw [hg, M_bind_ok]
    show resolve_in_maps iti idi (Ident.id s) = _
    unfold resolve_in_maps
    simp only [hp, hd]
    rfl
  · intro k hd
    unfold to_device_id
    rw [hg, M_bind_ok]
    show resolve_in_maps iti idi (Ident.id s) = _
    unfold resolve_in_maps
    simp only [hp, hd]
    rfl

/-- Witness for C5 at `sdk0`: `"nope"` is unknown and rejected; the
genuine id `"dev0"` is accepted unchanged. -/
theorem C5_witness :
    to_device_id sdk0 (Ident.id "nope")
      = Except.error (Outcome.out (JVal.jobj
          [("error", JVal.jstr "Unknown device identifier: nope")]) 1)
    ∧ to_device_id sdk0 (Ident.id "dev0") = Except.ok "dev0" := by
  constructor
  · exact (C5_amended_unparseable_strings_resolved_by_id sdk0 "nope"
      (devRows sdk0 0 [⟨some "dev0"⟩]).1
      (devRows sdk0 0 [⟨some "dev0"⟩]).2.1
      (devRows sdk0 0 [⟨some "dev0"⟩]).2.2 rfl rfl).1 rfl
  · exact (C5_amended_unparseable_strings_resolved_by_id sdk0 "dev0"
      (devRows sdk0 0 [⟨some "dev0"⟩]).1
      (devRows sdk0 0 [⟨some "dev0"⟩]).2.1
      (devRows sdk0 0 [⟨some "dev0"⟩]).2.2 rfl rfl).2 0 rfl

/-- Claim C4 (counterexample): `list_leds -1` does NOT always produce
`{error: "Index out of range: ..."}`: when the SDK exposes the
index-addressed position entry point (as `sdk0` does), the raw index is
passed straight to it and the failure surfaces as `{error: "Could not get
LED positions", code, device}` — still exit code 1, but a different error
document than the claim requires. -/
theorem C4_counterexample :
    (pyMain sdk0 noLoads ["list_leds", "-1"] "").1
      = (JVal.jobj [("error", JVal.jstr "Could not get LED positions"),
          ("code", JVal.jstr "CorsairError.CE_InvalidArguments"),
          ("device", JVal.jstr "-1")], 1)
    ∧ jGetStr (pyMain sdk0 noLoads ["list_leds", "-1"] "").1.1 "error"
        = some "Could not get LED positions"
    ∧ some "Could not get LED positions" ≠ some ("Index out of range: " ++ "-1") :=
  ⟨rfl, rfl, by decide⟩

/-- Claim C4 (amended): resolving an index absent from the index→id
mapping (for instance `-1`, or any index beyond the enumerated count)
through `to_device_id` emits `{error: "Index out of range: ..."}` with
exit code 1 and never crashes; `list_leds` with such a numeric index
produces that document only when the index-addressed position entry point
is unavailable — when it is available the raw index goes straight to the
SDK and a failed query is reported as `{error: "Could not get LED
positions", code, device}`, also with exit code 1. -/
theorem C4_amended_out_of_range_index (sdk : CueSdk) (i : Int) (s : String)
    (devs : List DeviceEntry) (iti : List (Int × String)) (idi : List (String × Int))
    (hg : get_devices_with_indexes sdk = Except.ok (devs, iti, idi))
    (hmiss : dlookup i iti = none) :
    (to_device_id sdk (Ident.idx i)
       = Except.error (Outcome.out (JVal.jobj
           [("error", JVal.jstr ("Index out of range: " ++ toString i))]) 1))
    ∧ (pyStrToInt s = some i → sdk.has_get_led_positions_by_device_index = false →
        sdk.connect_err = CorsairError.CE_Success →
        (list_leds_cmd sdk s).1
          = Outcome.out (JVal.jobj
              [("error", JVal.jstr ("Index out of range: " ++ toString i))]) 1)
    ∧ (pyStrToInt s = some i → sdk.has_get_led_positions_by_device_index = true →
        sdk.connect_err = CorsairError.CE_Success →
        ∀ e, sdk.get_led_positions_by_device_index i = (none, e) →
        (list_leds_cmd sdk s).1
          = Outcome.out (JVal.jobj [("error", JVal.jstr "Could not get LED positions"),
              ("code", JVal.jstr e.toStr), ("device", JVal.jstr s)]) 1) := by
  have hres : to_device_id sdk (Ident.idx i)
      = Except.error (Outcome.out (JVal.jobj
          [("error", JVal.jstr ("Index out of range: " ++ toString i))]) 1) := by
    unfold to_device_id
    rw [hg, M_bind_ok]
    show resolve_in_maps iti idi (Ident.idx i) = _
    unfold resolve_in_maps
    simp only [hmiss]
    rfl
  refine ⟨hres, ?_, ?_⟩
  · intro hp hapi hconn
    unfold list_leds_cmd
    rw [connect_sdk_ok sdk hconn, parseIdent_of_int s i hp]
    have hpos : get_led_positions sdk (Ident.idx i)
        = Except.error (Outcome.out (JVal.jobj
            [("error", JVal.jstr ("Index out of range: " ++ toString i))]) 1) := by
      unfold get_led_positions
      simp only [hapi, Bool.false_eq_true, if_false]
      rw [hres, M_bind_error]
    rw [hpos]
  · intro hp hapi hconn e he
    unfold list_leds_cmd
    rw [connect_sdk_ok sdk hconn, parseIdent_of_int s i hp]
    have hpos : get_led_positions sdk (Ident.idx i)
        = Except.ok (none, e) := by
      unfold get_led_positions
      simp only [hapi, if_true, he]
    rw [hpos]

/-- Witness for C4 at `sdkC5` (one device, index-addressed position API
unavailable): resolving the out-of-range index 5 yields the
index-out-of-range document, as does the full `list_leds 5` run. -/
theorem C4_witness :
    to_device_id sdkC5 (Ident.idx 5)
      = Except.error (Outcome.out (JVal.jobj
          [("error", JVal.jstr "Index out of range: 5")]) 1)
    ∧ (list_leds_cmd sdkC5 "5").1
      = Outcome.out (JVal.jobj [("error", JVal.jstr "Index out of range: 5")]) 1 := by
  have h := C4_amended_out_of_range_index sdkC5 5 "5"
    (devRows sdkC5 0 [⟨some "5"⟩]).1
    (devRows sdkC5 0 [⟨some "5"⟩]).2.1
    (devRows sdkC5 0 [⟨some "5"⟩]).2.2 rfl rfl
  exact ⟨h.1, h.2.1 rfl rfl rfl⟩

lemma build_colors_of_forall₂ {items : List JVal} {colors : List CorsairLedColor}
    (h : List.Forall₂ (fun item c => build_color item = Except.ok c) items colors) :
    build_colors items = Except.ok colors := by
  induction h with
  | nil => rfl
  | cons hac hrest ih =>
    rename_i a c l cs
    show (a :: l).mapM build_color = Except.ok (c :: cs)
    rw [List.mapM_cons, hac]
    rw [show (l.mapM build_color) = Except.ok cs from ih]
    rfl

lemma set_colors_buffer_index_attempt_trace (sdk : CueSdk) (ident : Ident)
    (colors : List CorsairLedColor) (r : CorsairError × List Event)
    (h : set_colors_buffer_index_attempt sdk ident colors = some r) :
    ∃ i, r.2 = [Event.write (WriteTarget.byIndex i) colors] := by
  unfold set_colors_buffer_index_attempt at h
  cases ident with
  | idx i =>
    simp only at h
    split at h
    · split at h
      · cases h
      · cases h; exact ⟨i, rfl⟩
    · cases h
  | id s => cases h

lemma set_colors_buffer_with_id_trace (sdk : CueSdk) (dev_id : String)
    (colors : List CorsairLedColor) :
    ∀ ev ∈ (set_colors_buffer_with_id sdk dev_id colors).2,
      ∃ t, ev = Event.write t colors := by
  intro ev hev
  unfold set_colors_buffer_with_id at hev
  split at hev
  · split at hev <;>
      (rcases List.mem_singleton.mp hev with rfl; exact ⟨_, rfl⟩)
  · split at hev
    · split at hev <;>
        (rcases List.mem_singleton.mp hev with rfl; exact ⟨_, rfl⟩)
    · cases hev

/-- Every event recorded by `set_colors_buffer` is a buffered write of
exactly the color list that was passed in — never a flush, never an
altered list. -/
lemma set_colors_buffer_trace (sdk : CueSdk) (ident : Ident)
    (colors : List CorsairLedColor) (e : CorsairError) (tr : List Event)
    (h : set_colors_buffer sdk ident colors = Except.ok (e, tr)) :
    ∀ ev ∈ tr, ∃ t, ev = Event.write t colors := by
  unfold set_colors_buffer at h
  cases ha : set_colors_buffer_index_attempt sdk ident colors with
  | some r =>
    rw [ha] at h
    obtain ⟨i, hi⟩ := set_colors_buffer_index_attempt_trace sdk ident colors r ha
    have h2 : r = (e, tr) := by injection h
    intro ev hev
    have hi2 : tr = [Event.write (WriteTarget.byIndex i) colors] := by
      rw [h2] at hi
      exact hi
    rw [hi2] at hev
    rcases List.mem_singleton.mp hev with rfl
    exact ⟨_, rfl⟩
  | none =>
    rw [ha] at h
    cases hd : to_device_id sdk ident with
    | error o => rw [hd, M_bind_error] at h; cases h
    | ok d =>
      rw [hd, M_bind_ok] at h
      have h2 : set_colors_buffer_with_id sdk d colors = (e, tr) := by injection h
      intro ev hev
      apply set_colors_buffer_with_id_trace sdk d colors
      rw [h2]
      exact hev

lemma set_colors_buffer_no_flush (sdk : CueSdk) (ident : Ident)
    (colors : List CorsairLedColor) (e : CorsairError) (tr : List Event)
    (h : set_colors_buffer sdk ident colors = Except.ok (e, tr)) :
    Event.flush ∉ tr := by
  intro hmem
  obtain ⟨t, ht⟩ := set_colors_buffer_trace sdk ident colors e tr h Event.flush hmem
  cases ht

lemma dispatch_set_leds (sdk : CueSdk) (jloads : String → Except String JVal)
    (d a : String) (stdin : String) :
    dispatch sdk jloads ["set_leds", d, a] stdin
      = match jloads a with
        | Except.error m => (Outcome.exn m, [])
        | Except.ok payload => set_leds_cmd sdk d payload := rfl

/-- Claim C6: `set_leds` builds one color assignment per payload entry,
each field coerced to integer, in payload order; a malformed entry raises
an exception that the top level converts to `{error: <message>}` with
exit 1; a non-`Success` buffered write yields `{error, code}` with exit 1
and no flush call; otherwise the buffer is flushed and `{ok: true}` is
emitted with exit 0. -/
theorem C6_set_leds_payload_processing (sdk : CueSdk) (dev : String) (payload : JVal)
    (items : List JVal) (colors : List CorsairLedColor)
    (hconn : sdk.connect_err = CorsairError.CE_Success)
    (hi : pyIterate payload = Except.ok items) :
    (List.Forall₂ (fun item c => build_color item = Except.ok c) items colors →
      build_colors items = Except.ok colors)
    ∧ (∀ m, build_colors items = Except.error m →
        ∀ (jloads : String → Except String JVal) (arg stdin : String),
          jloads arg = Except.ok payload →
          (pyMain sdk jloads ["set_leds", dev, arg] stdin).1
            = (JVal.jobj [("error", JVal.jstr m)], 1))
    ∧ (build_colors items = Except.ok colors →
        ∀ e tr, set_colors_buffer sdk (parseIdent dev) colors = Except.ok (e, tr) →
          ((e ≠ CorsairError.CE_Success →
             set_leds_cmd sdk dev payload
               = (Outcome.out (JVal.jobj [("error", JVal.jstr "Failed to set LED colors"),
                   ("code", JVal.jstr e.toStr)]) 1, tr)
             ∧ Event.flush ∉ tr)
           ∧ (e = CorsairError.CE_Success →
             set_leds_cmd sdk dev payload
               = (Outcome.out (JVal.jobj [("ok", JVal.jbool true)]) 0,
                  tr ++ (flush_colors sdk).2)
             ∧ (sdk.has_set_led_colors_flush_buffer = true →
                 (flush_colors sdk).2 = [Event.flush])))) := by
  refine ⟨build_colors_of_forall₂, ?_, ?_⟩
  · intro m hm jloads arg stdin hjl
    have hcmd : set_leds_cmd sdk dev payload = (Outcome.exn m, []) := by
      unfold set_leds_cmd
      rw [connect_sdk_ok sdk hconn]
      have : pyIterate payload >>= build_colors = Except.error m := by
        rw [hi]; exact hm
      rw [this]
    unfold pyMain
    rw [show (["set_leds", dev, arg] : List String).isEmpty = false from rfl]
    simp only [Bool.false_eq_true, if_false, dispatch_set_leds, hjl, hcmd]
  · intro hb e tr hbuf
    have hchain : pyIterate payload >>= build_colors = Except.ok colors := by
      rw [hi]; exact hb
    constructor
    · intro hne
      refine ⟨?_, set_colors_buffer_no_flush sdk _ colors e tr hbuf⟩
      unfold set_leds_cmd
      simp only [connect_sdk_ok sdk hconn, hchain, hbuf]
      rw [if_pos hne]
    · intro heq
      subst heq
      constructor
      · unfold set_leds_cmd
        simp only [connect_sdk_ok sdk hconn, hchain, hbuf]
        rw [if_neg (fun hc => hc rfl)]
      · intro hf
        unfold flush_colors
        rw [if_pos hf]

/-- Witness for C6 at `sdk0`: a well-formed one-entry payload builds
exactly one coerced assignment, the buffered write succeeds, the buffer
is flushed, and `{ok: true}` is emitted with exit code 0. -/
theorem C6_witness :
    build_colors [ledEntryW] = Except.ok [⟨3, 255, 0, 0⟩]
    ∧ set_leds_cmd sdk0 "0" (JVal.jarr [ledEntryW])
      = (Outcome.out (JVal.jobj [("ok", JVal.jbool true)]) 0,
         [Event.write (WriteTarget.byIndex 0) [⟨3, 255, 0, 0⟩], Event.flush]) := by
  have h := C6_set_leds_payload_processing sdk0 "0" (JVal.jarr [ledEntryW])
    [ledEntryW] [⟨3, 255, 0, 0⟩] rfl rfl
  refine ⟨h.1 (List.Forall₂.cons rfl List.Forall₂.nil), ?_⟩
  have h3 := (h.2.2 rfl CorsairError.CE_Success
    [Event.write (WriteTarget.byIndex 0) [⟨3, 255, 0, 0⟩]] rfl).2 rfl
  exact h3.1

lemma flush_colors_trace (sdk : CueSdk) :
    ∀ ev ∈ (flush_colors sdk).2, ev = Event.flush := by
  intro ev hev
  unfold flush_colors at hev
  split at hev
  · exact List.mem_singleton.mp hev
  · cases hev

lemma uniform_colors_mem (p : LedPositions) (r g b : Int) :
    ∀ c ∈ uniform_colors p r g b, c.r = r ∧ c.g = g ∧ c.b = b := by
  intro c hc
  obtain ⟨lp, _, hf⟩ := List.mem_filterMap.mp hc
  obtain ⟨lid, _, hfa⟩ := Option.map_eq_some'.mp hf
  rw [← hfa]
  exact ⟨rfl, rfl, rfl⟩

/-- Every buffered write the `set_color` fan-out loop adds to the trace
carries the uniform `(r, g, b)` triple. -/
lemma set_color_loop_writes (sdk : CueSdk) (r g b : Int) :
    ∀ (targets : List Ident) (acc : List Event) (t : WriteTarget) (cs : List CorsairLedColor),
      Event.write t cs ∈ (set_color_loop sdk r g b targets acc).2 →
      Event.write t cs ∈ acc ∨ ∀ c ∈ cs, c.r = r ∧ c.g = g ∧ c.b = b := by
  intro targets
  induction targets with
  | nil => intro acc t cs h; exact Or.inl h
  | cons ident rest ih =>
    intro acc t cs h
    unfold set_color_loop at h
    cases hp : get_led_positions sdk ident with
    | error o =>
      simp only [hp] at h
      exact Or.inl h
    | ok v =>
      obtain ⟨positions, perr⟩ := v
      simp only [hp] at h
      cases positions with
      | none => exact ih acc t cs h
      | some p =>
        cases perr with
        | CE_Failure c => exact ih acc t cs h
        | CE_Success =>
          by_cases he : (uniform_colors p r g b).isEmpty = true
          · simp only [he, if_true] at h
            exact ih acc t cs h
          · simp only [he, Bool.false_eq_true, if_false] at h
            cases hb : set_colors_buffer sdk ident (uniform_colors p r g b) with
            | error o =>
              simp only [hb] at h
              exact Or.inl h
            | ok w =>
              obtain ⟨err, tr⟩ := w
              simp only [hb] at h
              have hwr : Event.write t cs ∈ tr →
                  ∀ c ∈ cs, c.r = r ∧ c.g = g ∧ c.b = b := by
                intro hmem
                obtain ⟨t', ht'⟩ := set_colors_buffer_trace sdk ident
                  (uniform_colors p r g b) err tr hb (Event.write t cs) hmem
                have : cs = uniform_colors p r g b := by injection ht'
                rw [this]
                exact uniform_colors_mem p r g b
              cases err with
              | CE_Success =>
                rcases ih _ t cs h with hin | hok
                · rcases List.mem_append.mp hin with hin2 | hfl
                  · rcases List.mem_append.mp hin2 with hacc | htr
                    · exact Or.inl hacc
                    · exact Or.inr (hwr htr)
                  · cases flush_colors_trace sdk _ hfl
                · exact Or.inr hok
              | CE_Failure c =>
                rcases ih _ t cs h with hin | hok
                · rcases List.mem_append.mp hin with hacc | htr
                  · exact Or.inl hacc
                  · exact Or.inr (hwr htr)
                · exact Or.inr hok

/-- Claim C8 (counterexample): no `[0, 255]` range check exists —
`set_color 300 0 0` submits buffered assignments whose `r` channel is
300, outside the claimed range. -/
theorem C8_counterexample :
    (pyMain sdk0 noLoads ["set_color", "300", "0", "0"] "").2
      = [Event.write (WriteTarget.byIndex 0)
          [⟨5, 300, 0, 0⟩, ⟨6, 300, 0, 0⟩], Event.flush]
    ∧ ¬((300 : Int) ≤ 255) :=
  ⟨rfl, by decide⟩

/-- Claim C8 (amended): every LED Color Assignment submitted by
`set_color` carries exactly the parsed `(r, g, b)` arguments, and every
assignment submitted by `set_leds` is exactly the integer-coerced payload
entry list; no `[0, 255]` range validation is performed anywhere, values
outside that range are passed through verbatim. -/
theorem C8_amended_rgb_passed_through_verbatim (sdk : CueSdk) (r g b : Int)
    (dev? : Option String) (dev : String) (payload : JVal) :
    (∀ t cs, Event.write t cs ∈ (set_color_cmd sdk r g b dev?).2 →
      ∀ c ∈ cs, c.r = r ∧ c.g = g ∧ c.b = b)
    ∧ (∀ items colors, pyIterate payload = Except.ok items →
        build_colors items = Except.ok colors →
        ∀ t cs, Event.write t cs ∈ (set_leds_cmd sdk dev payload).2 → cs = colors) := by
  constructor
  · intro t cs h
    unfold set_color_cmd at h
    cases hc : connect_sdk sdk with
    | error o => simp only [hc] at h; cases h
    | ok u =>
      cases u
      simp only [hc] at h
      by_cases ht : truthy dev? = true
      · simp only [ht, if_true] at h
        rcases set_color_loop_writes sdk r g b _ [] t cs h with hin | hok
        · cases hin
        · exact hok
      · simp only [ht, Bool.false_eq_true, if_false] at h
        cases hg : get_devices_with_indexes sdk with
        | error o => simp only [hg] at h; cases h
        | ok v =>
          obtain ⟨devs, iti, idi⟩ := v
          simp only [hg] at h
          rcases set_color_loop_writes sdk r g b _ [] t cs h with hin | hok
          · cases hin
          · exact hok
  · intro items colors hi hb t cs h
    unfold set_leds_cmd at h
    cases hc : connect_sdk sdk with
    | error o => simp only [hc] at h; cases h
    | ok u =>
      cases u
      simp only [hc] at h
      have hchain : pyIterate payload >>= build_colors = Except.ok colors := by
        rw [hi]; exact hb
      simp only [hchain] at h
      cases hbuf : set_colors_buffer sdk (parseIdent dev) colors with
      | error o => simp only [hbuf] at h; cases h
      | ok w =>
        obtain ⟨err, tr⟩ := w
        simp only [hbuf] at h
        have hwr : Event.write t cs ∈ tr → cs = colors := by
          intro hmem
          obtain ⟨t', ht'⟩ := set_colors_buffer_trace sdk (parseIdent dev)
            colors err tr hbuf (Event.write t cs) hmem
          injection ht'
        cases err with
        | CE_Success =>
          rcases List.mem_append.mp h with htr | hfl
          · exact hwr htr
          · cases flush_colors_trace sdk _ hfl
        | CE_Failure c =>
          exact hwr h

/-- Witness for C8 at `sdk0`: the single buffered write of
`set_color 10 20 30` carries exactly `(10, 20, 30)` on every LED. -/
theorem C8_witness :
    (set_color_cmd sdk0 10 20 30 none).2
      = [Event.write (WriteTarget.byIndex 0)
          [⟨5, 10, 20, 30⟩, ⟨6, 10, 20, 30⟩], Event.flush]
    ∧ ∀ c ∈ [CorsairLedColor.mk 5 10 20 30, CorsairLedColor.mk 6 10 20 30],
        c.r = 10 ∧ c.g = 20 ∧ c.b = 30 := by
  refine ⟨rfl, ?_⟩
  exact (C8_amended_rgb_passed_through_verbatim sdk0 10 20 30 none "0" JVal.jnull).1
    (WriteTarget.byIndex 0) [⟨5, 10, 20, 30⟩, ⟨6, 10, 20, 30⟩]
    (by rw [show (set_color_cmd sdk0 10 20 30 none).2
          = [Event.write (WriteTarget.byIndex 0)
              [⟨5, 10, 20, 30⟩, ⟨6, 10, 20, 30⟩], Event.flush] from rfl]
        exact List.mem_cons_self _ _)

lemma gdwi_ok (sdk : CueSdk) (h : (sdk.get_devices).2 = CorsairError.CE_Success) :
    get_devices_with_indexes sdk
      = Except.ok (devRows sdk 0 ((sdk.get_devices).1.getD [])) := by
  unfold get_devices_with_indexes
  rw [if_neg]
  intro hn
  exact hn h

lemma get_led_positions_index_api (sdk : CueSdk) (i : Int)
    (H1 : sdk.has_get_led_positions_by_device_index = true) :
    get_led_positions sdk (Ident.idx i)
      = Except.ok (sdk.get_led_positions_by_device_index i) := by
  unfold get_led_positions
  simp only [H1, if_true]

lemma set_colors_buffer_index_api (sdk : CueSdk) (i : Int) (colors : List CorsairLedColor)
    (H2 : sdk.has_set_led_colors_buffer_by_device_index = true)
    (H3 : sdk.set_led_colors_buffer_by_device_index_raises = false) :
    set_colors_buffer sdk (Ident.idx i) colors
      = Except.ok (sdk.set_led_colors_buffer_by_device_index i colors,
          [Event.write (WriteTarget.byIndex i) colors]) := by
  unfold set_colors_buffer set_colors_buffer_index_attempt
  simp only [H2, H3, if_true, Bool.false_eq_true, if_false]

/-- When the index-addressed position and buffer entry points are
available (and the buffer call does not raise), the `set_color` fan-out
loop over index targets never escapes: it always ends in
`json_out({ok: true})` with exit code 0, and its trace is exactly the
concatenation of each target's per-device write/flush events. -/
lemma set_color_loop_step_index_api (sdk : CueSdk) (r g b : Int)
    (H1 : sdk.has_get_led_positions_by_device_index = true)
    (H2 : sdk.has_set_led_colors_buffer_by_device_index = true)
    (H3 : sdk.set_led_colors_buffer_by_device_index_raises = false)
    (i : Int) (rest : List Ident) (acc : List Event) :
    set_color_loop sdk r g b (Ident.idx i :: rest) acc
      = set_color_loop sdk r g b rest (acc ++ set_color_target_trace sdk r g b i) := by
  show (match get_led_positions sdk (Ident.idx i) with
        | Except.error o => (o, acc)
        | Except.ok (positions, perr) =>
          match positions, perr with
          | some p, CorsairError.CE_Success =>
            let colors := uniform_colors p r g b
            if colors.isEmpty then set_color_loop sdk r g b rest acc
            else
              match set_colors_buffer sdk (Ident.idx i) colors with
              | Except.error o => (o, acc)
              | Except.ok (err, tr) =>
                if err ≠ CorsairError.CE_Success then
                  set_color_loop sdk r g b rest (acc ++ tr)
                else
                  set_color_loop sdk r g b rest (acc ++ tr ++ (flush_colors sdk).2)
          | _, _ => set_color_loop sdk r g b rest acc)
      = set_color_loop sdk r g b rest (acc ++ set_color_target_trace sdk r g b i)
  rw [get_led_positions_index_api sdk i H1]
  cases hq : sdk.get_led_positions_by_device_index i with
  | mk popt e =>
    cases popt with
    | none =>
      have htr : set_color_target_trace sdk r g b i = [] := by
        unfold set_color_target_trace
        rw [hq]
      rw [htr, List.append_nil]
    | some p =>
      cases e with
      | CE_Failure c =>
        have htr : set_color_target_trace sdk r g b i = [] := by
          unfold set_color_target_trace
          rw [hq]
        rw [htr, List.append_nil]
      | CE_Success =>
        have htr : set_color_target_trace sdk r g b i
            = (if (uniform_colors p r g b).isEmpty = true then []
               else Event.write (WriteTarget.byIndex i) (uniform_colors p r g b) ::
                 (if sdk.set_led_colors_buffer_by_device_index i (uniform_colors p r g b)
                     = CorsairError.CE_Success then (flush_colors sdk).2 else [])) := by
          unfold set_color_target_trace
          rw [hq]
        rw [htr]
        show (if (uniform_colors p r g b).isEmpty = true then
                set_color_loop sdk r g b rest acc
              else
                match set_colors_buffer sdk (Ident.idx i) (uniform_colors p r g b) with
                | Except.error o => (o, acc)
                | Except.ok (err, tr) =>
                  if err ≠ CorsairError.CE_Success then
                    set_color_loop sdk r g b rest (acc ++ tr)
                  else
                    set_color_loop sdk r g b rest (acc ++ tr ++ (flush_colors sdk).2)) = _
        rw [set_colors_buffer_index_api sdk i (uniform_colors p r g b) H2 H3]
        by_cases hemp : (uniform_colors p r g b).isEmpty = true
        · rw [if_pos hemp, if_pos hemp, List.append_nil]
        · rw [if_neg hemp, if_neg hemp]
          show (if sdk.set_led_colors_buffer_by_device_index i (uniform_colors p r g b)
                   ≠ CorsairError.CE_Success then
                  set_color_loop sdk r g b rest
                    (acc ++ [Event.write (WriteTarget.byIndex i) (uniform_colors p r g b)])
                else
                  set_color_loop sdk r g b rest
                    (acc ++ [Event.write (WriteTarget.byIndex i) (uniform_colors p r g b)]
                       ++ (flush_colors sdk).2)) = _
          by_cases hcall :
              sdk.set_led_colors_buffer_by_device_index i (uniform_colors p r g b)
                = CorsairError.CE_Success
          · rw [if_neg (fun hc => hc hcall), if_pos hcall, List.append_assoc]
            rfl
          · rw [if_pos hcall, if_neg hcall]

/-- When the index-addressed position and buffer entry points are
available (and the buffer call does not raise), the `set_color` fan-out
loop over index targets never escapes: it always ends in
`json_out({ok: true})` with exit code 0, and its trace is exactly the
concatenation of each target's per-device write/flush events. -/
lemma set_color_loop_index_api (sdk : CueSdk) (r g b : Int)
    (H1 : sdk.has_get_led_positions_by_device_index = true)
    (H2 : sdk.has_set_led_colors_buffer_by_device_index = true)
    (H3 : sdk.set_led_colors_buffer_by_device_index_raises = false) :
    ∀ (ids : List Int) (acc : List Event),
      set_color_loop sdk r g b (ids.map Ident.idx) acc
        = (Outcome.out (JVal.jobj [("ok", JVal.jbool true)]) 0,
           acc ++ ids.flatMap (set_color_target_trace sdk r g b)) := by
  intro ids
  induction ids with
  | nil =>
    intro acc
    simp only [List.map_nil, List.flatMap_nil, List.append_nil]
    rfl
  | cons i rest ih =>
    intro acc
    simp only [List.map_cons, List.flatMap_cons]
    rw [set_color_loop_step_index_api sdk r g b H1 H2 H3 i _ acc, ih]
    rw [List.append_assoc]

/-- Claim C2 (counterexample): `set_color 0 0 0` with no identifier does
NOT always attempt a buffered write for every enumerated device, nor
always emit `{ok: true}` with exit 0: at `sdkC2` the enumeration returns
one device (whose id attribute is not a string) and, the index-addressed
position entry point being unavailable, resolving the fan-out target
index 0 terminates the whole command with `{error: "Index out of range:
0"}` and exit code 1, with no write attempted at all. -/
theorem C2_counterexample :
    (pyMain sdkC2 noLoads ["set_color", "0", "0", "0"] "").1
      = (JVal.jobj [("error", JVal.jstr "Index out of range: 0")], 1)
    ∧ (pyMain sdkC2 noLoads ["set_color", "0", "0", "0"] "").2 = []
    ∧ (devRows sdkC2 0 [⟨none⟩]).1.length = 1 :=
  ⟨rfl, rfl, rfl⟩

/-- Claim C2 (amended): with the index-addressed position and buffer
entry points available (and not raising), `set_color` with no identifier
targets the index of every device whose info query succeeded, attempts a
buffered write exactly for those targets whose position query succeeds
and yields at least one LED with an id, swallows every per-device
non-`Success` status (flushing only after a successful write), and then
emits `{ok: true}` with exit code 0 unconditionally.  (Without the
index-addressed entry points, identifier re-resolution inside the loop
can instead terminate the command with an error document and exit 1, as
the counterexample shows.) -/
theorem C2_amended_best_effort_fanout (sdk : CueSdk) (r g b : Int)
    (H0 : sdk.connect_err = CorsairError.CE_Success)
    (H4 : (sdk.get_devices).2 = CorsairError.CE_Success)
    (H1 : sdk.has_get_led_positions_by_device_index = true)
    (H2 : sdk.has_set_led_colors_buffer_by_device_index = true)
    (H3 : sdk.set_led_colors_buffer_by_device_index_raises = false) :
    set_color_cmd sdk r g b none
      = (Outcome.out (JVal.jobj [("ok", JVal.jbool true)]) 0,
         ((devRows sdk 0 ((sdk.get_devices).1.getD [])).1.map
             (fun d => (d.index : Int))).flatMap
           (set_color_target_trace sdk r g b)) := by
  unfold set_color_cmd
  rw [connect_sdk_ok sdk H0, gdwi_ok sdk H4]
  show set_color_loop sdk r g b
      ((devRows sdk 0 ((sdk.get_devices).1.getD [])).1.map
        (fun d => Ident.idx (d.index : Int))) []
    = _
  have hmaps : (devRows sdk 0 ((sdk.get_devices).1.getD [])).1.map
        (fun d => Ident.idx (d.index : Int))
      = ((devRows sdk 0 ((sdk.get_devices).1.getD [])).1.map
          (fun d => (d.index : Int))).map Ident.idx := by
    rw [List.map_map]
    rfl
  rw [hmaps, set_color_loop_index_api sdk r g b H1 H2 H3]
  rw [List.nil_append]

/-- Witness for C2 at `sdk0`: the fan-out over the single enumerated
device performs its buffered write and flush and ends in `{ok: true}`
with exit code 0. -/
theorem C2_witness :
    set_color_cmd sdk0 0 0 0 none
      = (Outcome.out (JVal.jobj [("ok", JVal.jbool true)]) 0,
         [Event.write (WriteTarget.byIndex 0) [⟨5, 0, 0, 0⟩, ⟨6, 0, 0, 0⟩], Event.flush]) := by
  rw [C2_amended_best_effort_fanout sdk0 0 0 0 rfl rfl rfl rfl rfl]
  rfl

lemma dlookup_eq_none_of_not_mem {α β : Type} [DecidableEq α] (k : α) :
    ∀ l : List (α × β), k ∉ l.map Prod.fst → dlookup k l = none := by
  intro l
  induction l with
  | nil => intro; rfl
  | cons ab t ih =>
    obtain ⟨a, b⟩ := ab
    intro h
    have hk : k ∉ t.map Prod.fst := fun hm => h (List.mem_cons_of_mem _ hm)
    have ha : a ≠ k := by
      intro heq
      exact h (heq ▸ List.mem_cons_self _ _)
    unfold dlookup
    rw [ih hk, if_neg ha]

lemma dlookup_nodup_mem_iff {α β : Type} [DecidableEq α] (k : α) (v : β) :
    ∀ l : List (α × β), (l.map Prod.fst).Nodup →
      (dlookup k l = some v ↔ (k, v) ∈ l) := by
  intro l
  induction l with
  | nil =>
    intro _
    constructor
    · intro h; cases h
    · intro h; cases h
  | cons ab t ih =>
    obtain ⟨a, b⟩ := ab
    intro hnd
    rw [List.map_cons, List.nodup_cons] at hnd
    obtain ⟨hanot, hndt⟩ := hnd
    by_cases hka : k = a
    · subst hka
      have hnone : dlookup k t = none :=
        dlookup_eq_none_of_not_mem k t hanot
      unfold dlookup
      rw [hnone, if_pos rfl]
      constructor
      · intro h
        cases h
        exact List.mem_cons_self _ _
      · intro h
        rcases List.mem_cons.mp h with heq | hmem
        · cases heq; rfl
        · exact absurd (List.mem_map_of_mem Prod.fst hmem) hanot
    · unfold dlookup
      constructor
      · intro h
        cases ht : dlookup k t with
        | some w =>
          rw [ht] at h
          cases h
          exact List.mem_cons_of_mem _ ((ih hndt).mp ht)
        | none =>
          rw [ht, if_neg (fun he => hka he.symm)] at h
          cases h
      · intro h
        rcases List.mem_cons.mp h with heq | hmem
        · injection heq with h1 h2
          exact absurd h1 hka
        · rw [(ih hndt).mpr hmem]

lemma dlookup_swap_iff (l : List (Int × String))
    (hk : (l.map Prod.fst).Nodup) (hv : (l.map Prod.snd).Nodup)
    (i : Int) (d : String) :
    dlookup i l = some d ↔ dlookup d (l.map Prod.swap) = some i := by
  have hswapkeys : ((l.map Prod.swap).map Prod.fst).Nodup := by
    rw [List.map_map]
    exact hv
  rw [dlookup_nodup_mem_iff i d l hk, dlookup_nodup_mem_iff d i _ hswapkeys]
  constructor
  · intro h
    exact List.mem_map_of_mem Prod.swap h
  · intro h
    obtain ⟨⟨x, y⟩, hxy, heq⟩ := List.mem_map.mp h
    injection heq with hy hx
    subst hy
    subst hx
    exact hxy

/-- Every entry index produced from start position `k` is at least `k`. -/
lemma devRows_index_lb (sdk : CueSdk) :
    ∀ (devs : List SdkDevice) (k : Nat) (e : DeviceEntry),
      e ∈ (devRows sdk k devs).1 → k ≤ e.index := by
  intro devs
  induction devs with
  | nil => intro k e he; cases he
  | cons d rest ih =>
    intro k e he
    unfold devRows at he
    cases hio : devInfoOk sdk d with
    | none =>
      rw [hio] at he
      exact Nat.le_of_succ_le (ih (k + 1) e he)
    | some info =>
      rw [hio] at he
      cases hdid : d.device_id with
      | some s =>
        rw [hdid] at he
        rcases List.mem_cons.mp he with heq | hmem
        · rw [heq]; exact Nat.le_refl k
        · exact Nat.le_of_succ_le (ih (k + 1) e hmem)
      | none =>
        rw [hdid] at he
        rcases List.mem_cons.mp he with heq | hmem
        · rw [heq]; exact Nat.le_refl k
        · exact Nat.le_of_succ_le (ih (k + 1) e hmem)

/-- Each produced entry is the dict built for the device at its
enumeration position: position `k + j` for the `j`-th input device, with
a successful info query. -/
lemma devRows_provenance (sdk : CueSdk) :
    ∀ (devs : List SdkDevice) (k : Nat) (e : DeviceEntry),
      e ∈ (devRows sdk k devs).1 →
      ∃ j : Fin devs.length, ∃ info,
        devInfoOk sdk (devs.get j) = some info
        ∧ e = deviceEntryOf (k + j.val) (devs.get j) info := by
  intro devs
  induction devs with
  | nil => intro k e he; cases he
  | cons d rest ih =>
    intro k e he
    unfold devRows at he
    cases hio : devInfoOk sdk d with
    | none =>
      rw [hio] at he
      obtain ⟨j, info, hinfo, hent⟩ := ih (k + 1) e he
      refine ⟨j.succ, info, hinfo, ?_⟩
      rw [hent]
      have : k + 1 + j.val = k + (j.val + 1) := by omega
      rw [this]
      rfl
    | some info =>
      rw [hio] at he
      have hstep : e = deviceEntryOf k d info ∨ e ∈ (devRows sdk (k + 1) rest).1 := by
        cases hdid : d.device_id with
        | some s => rw [hdid] at he; exact List.mem_cons.mp he
        | none => rw [hdid] at he; exact List.mem_cons.mp he
      rcases hstep with heq | hmem
      · refine ⟨⟨0, Nat.succ_pos _⟩, info, hio, ?_⟩
        rw [heq]
        rfl
      · obtain ⟨j, info', hinfo, hent⟩ := ih (k + 1) e hmem
        refine ⟨j.succ, info', hinfo, ?_⟩
        rw [hent]
        have : k + 1 + j.val = k + (j.val + 1) := by omega
        rw [this]
        rfl

/-- The emitted index sequence is strictly increasing (non-contiguity is
possible: a skipped device consumes its index). -/
lemma devRows_chain (sdk : CueSdk) :
    ∀ (devs : List SdkDevice) (k : Nat),
      List.Chain' (· < ·) ((devRows sdk k devs).1.map (fun e => e.index)) := by
  intro devs
  induction devs with
  | nil => intro k; exact List.chain'_nil
  | cons d rest ih =>
    intro k
    unfold devRows
    cases hio : devInfoOk sdk d with
    | none => exact ih (k + 1)
    | some info =>
      have hcons : ∀ tail1 : List DeviceEntry,
          tail1 = (devRows sdk (k + 1) rest).1 →
          List.Chain' (· < ·) ((deviceEntryOf k d info :: tail1).map (fun e => e.index)) := by
        intro tail1 htail
        rw [List.map_cons, List.chain'_cons']
        constructor
        · intro m hm
          obtain ⟨e, hemem, hee⟩ :=
            List.mem_map.mp (List.mem_of_mem_head? hm)
          have := devRows_index_lb sdk rest (k + 1) e (htail ▸ hemem)
          have hk : (deviceEntryOf k d info).index = k := rfl
          rw [hk, ← hee]
          omega
        · rw [htail]
          exact ih (k + 1)
      cases hdid : d.device_id with
      | some s => exact hcons _ rfl
      | none => exact hcons _ rfl

/-- The index→id mapping consists of exactly the entries whose device id
is a string, keyed by the entry's index. -/
lemma devRows_iti_eq (sdk : CueSdk) :
    ∀ (devs : List SdkDevice) (k : Nat),
      (devRows sdk k devs).2.1
        = (devRows sdk k devs).1.filterMap
            (fun e => e.device_id.map (fun s => ((e.index : Int), s))) := by
  intro devs
  induction devs with
  | nil => intro k; rfl
  | cons d rest ih =>
    intro k
    unfold devRows
    cases hio : devInfoOk sdk d with
    | none => exact ih (k + 1)
    | some info =>
      cases hdid : d.device_id with
      | some s =>
        show ((k : Int), s) :: (devRows sdk (k + 1) rest).2.1 = _
        rw [List.filterMap_cons]
        have : (deviceEntryOf k d info).device_id.map
            (fun s => (((deviceEntryOf k d info).index : Int), s)) = some ((k : Int), s) := by
          show d.device_id.map _ = _
          rw [hdid]
          rfl
        rw [this, ih (k + 1)]
      | none =>
        show (devRows sdk (k + 1) rest).2.1 = _
        rw [List.filterMap_cons]
        have : (deviceEntryOf k d info).device_id.map
            (fun s => (((deviceEntryOf k d info).index : Int), s)) = none := by
          show d.device_id.map _ = _
          rw [hdid]
          rfl
        rw [this, ih (k + 1)]

/-- The id→index mapping is the transpose of the index→id mapping. -/
lemma devRows_idi_eq (sdk : CueSdk) :
    ∀ (devs : List SdkDevice) (k : Nat),
      (devRows sdk k devs).2.2 = (devRows sdk k devs).2.1.map Prod.swap := by
  intro devs
  induction devs with
  | nil => intro k; rfl
  | cons d rest ih =>
    intro k
    unfold devRows
    cases hio : devInfoOk sdk d with
    | none => exact ih (k + 1)
    | some info =>
      cases hdid : d.device_id with
      | some s =>
        show (s, (k : Int)) :: (devRows sdk (k + 1) rest).2.2
          = (((k : Int), s) :: (devRows sdk (k + 1) rest).2.1).map Prod.swap
        rw [List.map_cons, ih (k + 1)]
        rfl
      | none => exact ih (k + 1)

/-- Keys of the index→id mapping built from start position `k` are at
least `k`. -/
lemma devRows_iti_keys_lb (sdk : CueSdk) :
    ∀ (devs : List SdkDevice) (k : Nat) (x : Int × String),
      x ∈ (devRows sdk k devs).2.1 → (k : Int) ≤ x.1 := by
  intro devs
  induction devs with
  | nil => intro k x hx; cases hx
  | cons d rest ih =>
    intro k x hx
    unfold devRows at hx
    cases hio : devInfoOk sdk d with
    | none =>
      rw [hio] at hx
      have := ih (k + 1) x hx
      omega
    | some info =>
      rw [hio] at hx
      cases hdid : d.device_id with
      | some s =>
        rw [hdid] at hx
        rcases List.mem_cons.mp hx with heq | hmem
        · rw [heq]
        · have := ih (k + 1) x hmem
          omega
      | none =>
        rw [hdid] at hx
        exact Int.le_of_lt (by have := ih (k + 1) x hx; omega)

/-- The index→id mapping's keys are pairwise distinct. -/
lemma devRows_iti_keys_nodup (sdk : CueSdk) :
    ∀ (devs : List SdkDevice) (k : Nat),
      ((devRows sdk k devs).2.1.map Prod.fst).Nodup := by
  intro devs
  induction devs with
  | nil => intro k; exact List.nodup_nil
  | cons d rest ih =>
    intro k
    unfold devRows
    cases hio : devInfoOk sdk d with
    | none => exact ih (k + 1)
    | some info =>
      cases hdid : d.device_id with
      | some s =>
        show (((k : Int), s) :: (devRows sdk (k + 1) rest).2.1).map Prod.fst |>.Nodup
        rw [List.map_cons, List.nodup_cons]
        constructor
        · intro hmem
          obtain ⟨x, hx, hxk⟩ := List.mem_map.mp hmem
          have := devRows_iti_keys_lb sdk rest (k + 1) x hx
          omega
        · exact ih (k + 1)
      | none => exact ih (k + 1)

/-- Claim C10 (counterexample): with two devices sharing the id string
`"d"`, the mappings are NOT mutually inverse over the string-id devices:
index 0 maps to `"d"`, but `"d"` maps back to 1 (the id→index dict keeps
the last index for a duplicated id). -/
theorem C10_counterexample :
    dlookup 0 (devRows sdkC10 0 [⟨some "d"⟩, ⟨some "d"⟩]).2.1 = some "d"
    ∧ dlookup "d" (devRows sdkC10 0 [⟨some "d"⟩, ⟨some "d"⟩]).2.2 = some 1
    ∧ (1 : Int) ≠ 0 :=
  ⟨rfl, rfl, by decide⟩

/-- Claim C10 (amended): each emitted Device Descriptor's index is the
device's zero-based position in the SDK enumeration order (devices whose
info query fails consume their index but produce no entry), so the output
index sequence is strictly increasing though possibly non-contiguous; the
index→id mapping holds exactly the entries whose id is a string, and the
id→index mapping is its transpose; provided the string ids are pairwise
distinct, the two mappings are mutually inverse (with duplicates, the
id→index side keeps only the last index). -/
theorem C10_amended_enumeration_structure (sdk : CueSdk)
    (devs : List SdkDevice)
    (hdevs : (sdk.get_devices).1.getD [] = devs)
    (H4 : (sdk.get_devices).2 = CorsairError.CE_Success) :
    get_devices_with_indexes sdk = Except.ok (devRows sdk 0 devs)
    ∧ (∀ e ∈ (devRows sdk 0 devs).1, ∃ j : Fin devs.length, ∃ info,
         devInfoOk sdk (devs.get j) = some info
         ∧ e = deviceEntryOf j.val (devs.get j) info)
    ∧ List.Chain' (· < ·) ((devRows sdk 0 devs).1.map (fun e => e.index))
    ∧ (devRows sdk 0 devs).2.1
        = (devRows sdk 0 devs).1.filterMap
            (fun e => e.device_id.map (fun s => ((e.index : Int), s)))
    ∧ (devRows sdk 0 devs).2.2 = (devRows sdk 0 devs).2.1.map Prod.swap
    ∧ (((devRows sdk 0 devs).2.1.map Prod.snd).Nodup →
        ∀ (i : Int) (d : String),
          dlookup i (devRows sdk 0 devs).2.1 = some d
            ↔ dlookup d (devRows sdk 0 devs).2.2 = some i) := by
  refine ⟨?_, ?_, devRows_chain sdk devs 0, devRows_iti_eq sdk devs 0,
    devRows_idi_eq sdk devs 0, ?_⟩
  · rw [gdwi_ok sdk H4, hdevs]
  · intro e he
    obtain ⟨j, info, hinfo, hent⟩ := devRows_provenance sdk devs 0 e he
    exact ⟨j, info, hinfo, by rw [hent, Nat.zero_add]⟩
  · intro hv i d
    rw [devRows_idi_eq sdk devs 0]
    exact dlookup_swap_iff _ (devRows_iti_keys_nodup sdk devs 0) hv i d

/-- Witness for C10 at `sdk0`: its single-device enumeration satisfies
the mutual-inverse property at index 0 and id `"dev0"`. -/
theorem C10_witness :
    get_devices_with_indexes sdk0 = Except.ok (devRows sdk0 0 [⟨some "dev0"⟩])
    ∧ (dlookup 0 (devRows sdk0 0 [⟨some "dev0"⟩]).2.1 = some "dev0"
        ↔ dlookup "dev0" (devRows sdk0 0 [⟨some "dev0"⟩]).2.2 = some 0) := by
  have h := C10_amended_enumeration_structure sdk0 [⟨some "dev0"⟩] rfl rfl
  exact ⟨h.1, h.2.2.2.2.2 (by decide) 0 "dev0"⟩

end ICue
